import Mathlib

/-!
Verification of the Outlook2OneNote add-in.

This file gives a shallow embedding, in Lean 4, of the authentication and
export logic of the Outlook2OneNote Office add-in: the PKCE helpers of
`src/common/crypto-utils.js`, the `PKCEAuthenticator` class of
`src/auth/pkce-auth.js`, the module-level fallback logic of
`src/common/graphapi-auth.js`, the configuration of
`src/common/env-config.js`, and the conversation export helper
`exportConversationToOneNote` of the task pane.

Conventions of the embedding:
- Platform-level primitives (`btoa`, UTF-8 encoding by
  `TextEncoder`, form-urlencoding by `URLSearchParams`) are modelled by
  executable Lean functions with the documented semantics of the browser
  primitive.
- Genuinely external effects (the SHA-256 digest of `crypto.subtle`,
  network responses, the random bytes of `crypto.getRandomValues`, the
  current time `Date.now()`) are passed in as explicit parameters.
- `sessionStorage` is modelled as a total map from key strings to
  `Option String`; mutation is explicit state passing.
- Fallible code returns `Except String` carrying the thrown `Error`
  message.
-/

namespace Outlook2OneNote

/-! ## JavaScript value helpers -/

/-- Truthiness of a nullable string (`null`/`undefined` is `none`; the empty
string is falsy). -/
def jsTruthy : Option String → Bool
  | none => false
  | some s => !(s == "")

/-- The JavaScript expression `a || b` on nullable strings. -/
def jsOr (a b : Option String) : Option String :=
  if jsTruthy a then a else b

/-- The JavaScript expression `a || d` where `d` is a (truthy) string
literal default. -/
def jsOrDefault (a : Option String) (d : String) : String :=
  if jsTruthy a then a.getD "" else d

/-- The JavaScript expression `a || b || d` on nullable strings with a
truthy literal default. -/
def jsOrDefault2 (a b : Option String) (d : String) : String :=
  jsOrDefault (jsOr a b) d

/-- Template-literal interpolation of a nullable string (`null` prints as
the four characters `null`). -/
def jsStr (a : Option String) : String := a.getD "null"

/-- `parseInt(s, 10)` restricted to the outcomes relevant here: the longest
leading run of decimal digits, or `none` when there is none (`NaN`). -/
def jsParseInt (s : String) : Option Nat :=
  let digits := s.toList.takeWhile fun c => c.isDigit
  if digits.isEmpty then none else (String.mk digits).toNat?

/-! ## Base64 and base64url encoding

`crypto-utils.js` builds base64url strings by calling the browser
primitive `btoa` on a byte string and then rewriting the result with three
regex replacements.  Bytes are modelled as `Nat` values below 256. -/

/-- The standard base64 alphabet used by the browser primitive `btoa`. -/
def b64Alphabet : List Char :=
  "ABCDEFGHIJKLMNOPQRSTUVWXYZabcdefghijklmnopqrstuvwxyz0123456789+/".toList

/-- Character for a six-bit group in standard base64. -/
def b64Char (n : Nat) : Char := b64Alphabet.getD n 'A'

/-- Six-bit groups of a byte sequence, in base64 block structure; `none`
marks a padding position (`=`). -/
def sextets : List Nat → List (Option Nat)
  | [] => []
  | [a] => [some (a / 4), some (a % 4 * 16), none, none]
  | [a, b] => [some (a / 4), some (a % 4 * 16 + b / 16), some (b % 16 * 4), none]
  | a :: b :: c :: rest =>
    some (a / 4) :: some (a % 4 * 16 + b / 16) :: some (b % 16 * 4 + c / 64) ::
      some (c % 64) :: sextets rest

/-- Model of the browser primitive `btoa` applied to a binary string whose
code units are the given bytes (as `crypto-utils.js` does via
`String.fromCharCode`). -/
def btoa (data : List Nat) : String :=
  String.mk ((sextets data).map fun s =>
    match s with
    | some n => b64Char n
    | none => '=')

/-- Model of `s.replace(/c/g, d)` for single characters. -/
def replaceChar (c d : Char) (s : String) : String :=
  String.mk (s.toList.map fun x => if x = c then d else x)

/-- Model of `s.replace(/c/g, '')` for a single character. -/
def removeChar (c : Char) (s : String) : String :=
  String.mk (s.toList.filter fun x => x ≠ c)

/-- `base64urlEncode` from `crypto-utils.js`: standard base64 via `btoa`,
then `+` replaced by `-`, `/` replaced by `_`, and `=` padding removed. -/
def base64urlEncode (data : List Nat) : String :=
  removeChar '=' (replaceChar '/' '_' (replaceChar '+' '-' (btoa data)))

/-- Modelled from the spec: the URL-safe base64 alphabet
(`A-Z`, `a-z`, `0-9`, `-`, `_`). -/
def b64urlAlphabet : List Char :=
  "ABCDEFGHIJKLMNOPQRSTUVWXYZabcdefghijklmnopqrstuvwxyz0123456789-_".toList

/-- Character for a six-bit group in base64url. -/
def b64urlChar (n : Nat) : Char := b64urlAlphabet.getD n 'A'

/-- The six-bit values of a byte sequence with padding positions dropped. -/
def sextVals (data : List Nat) : List Nat := (sextets data).filterMap id

/-- Modelled from the spec: base64url encoding written directly — the
URL-safe alphabet applied to the six-bit groups, with no padding. -/
def base64urlSpec (data : List Nat) : String :=
  String.mk ((sextVals data).map b64urlChar)

/-- The composite of the two character replacements of `base64urlEncode`. -/
def urlRepl (c : Char) : Char :=
  if c = '+' then '-' else if c = '/' then '_' else c

/-- Left inverse of `sextVals`: reassembles the bytes from the six-bit
groups of a base64 encoding. -/
def unsextVals : List Nat → List Nat
  | [] => []
  | [_] => []
  | [s0, s1] => [s0 * 4 + s1 / 16]
  | [s0, s1, s2] => [s0 * 4 + s1 / 16, s1 % 16 * 16 + s2 / 4]
  | s0 :: s1 :: s2 :: s3 :: rest =>
    (s0 * 4 + s1 / 16) :: (s1 % 16 * 16 + s2 / 4) :: (s2 % 4 * 64 + s3) :: unsextVals rest

/-! ## UTF-8 (the `TextEncoder` primitive) -/

/-- UTF-8 bytes of a single code point. -/
def utf8Bytes (n : Nat) : List Nat :=
  if n < 128 then [n]
  else if n < 2048 then [192 + n / 64, 128 + n % 64]
  else if n < 65536 then [224 + n / 4096, 128 + n / 64 % 64, 128 + n % 64]
  else [240 + n / 262144, 128 + n / 4096 % 64, 128 + n / 64 % 64, 128 + n % 64]

/-- Model of `new TextEncoder().encode(s)`. -/
def utf8Encode (s : String) : List Nat :=
  s.toList.flatMap fun c => utf8Bytes c.toNat

/-! ## `crypto-utils.js` -/

/-- Availability of the browser crypto APIs (`checkCryptoSupport` result,
restricted to the field the control flow reads). -/
structure CryptoEnv where
  subtle : Bool

/-- `generateCodeVerifier`: base64url encoding of 32 random bytes.  The
bytes produced by `crypto.getRandomValues` (or the `Math.random` fallback)
are passed in explicitly. -/
def generateCodeVerifier (randomBytes : List Nat) : String :=
  base64urlEncode randomBytes

/-- JavaScript `ToInt32` coercion (the `|`, `&` and `<<` operand
conversion). -/
def toInt32 (x : Int) : Int :=
  let r := x % 4294967296
  if r < 2147483648 then r else r - 4294967296

/-- JavaScript `ToUint32` coercion (used by `DataView.setUint32`). -/
def toUint32 (x : Int) : Nat := (x % 4294967296).toNat

/-- One step of the `fallbackSha256` loop:
`hash = ((hash << 5) - hash) + char; hash = hash & hash`. -/
def fallbackStep (hash : Int) (c : Nat) : Int :=
  toInt32 (toInt32 (toInt32 hash * 32) - hash + c)

/-- The 32-bit accumulator of `fallbackSha256` over the code units of the
message. -/
def fallbackHashVal (message : String) : Int :=
  message.toList.foldl (fun h c => fallbackStep h c.toNat) 0

/-- Big-endian bytes of a 32-bit word (`DataView.setUint32` with
`littleEndian = false`). -/
def be32 (n : Nat) : List Nat :=
  [n / 16777216 % 256, n / 65536 % 256, n / 256 % 256, n % 256]

/-- `fallbackSha256` from `crypto-utils.js`: the insecure stand-in used
when the Web Crypto API is unavailable — eight big-endian words
`hash + i` for `i = 0..7`. -/
def fallbackSha256 (message : String) : List Nat :=
  (List.range 8).flatMap fun i => be32 (toUint32 (fallbackHashVal message + i))

/-- `generateCodeChallenge`: SHA-256 (the platform digest, passed in as
`digest`) of the UTF-8 encoding of the verifier when `crypto.subtle` is
available, else `fallbackSha256`; the hash is then base64url-encoded. -/
def generateCodeChallenge (env : CryptoEnv) (digest : List Nat → List Nat)
    (codeVerifier : String) : String :=
  let data := utf8Encode codeVerifier
  let hash := if env.subtle then digest data else fallbackSha256 codeVerifier
  base64urlEncode hash

/-- Characters accepted by the `/^[A-Za-z0-9\-._~]+$/` test of
`validateCodeVerifier`. -/
def isVerifierChar (c : Char) : Bool :=
  ('A' ≤ c && c ≤ 'Z') || ('a' ≤ c && c ≤ 'z') || ('0' ≤ c && c ≤ '9') ||
    c = '-' || c = '.' || c = '_' || c = '~'

/-- `validateCodeVerifier` from `crypto-utils.js`: non-empty, length within
43..128, characters within the RFC 7636 verifier alphabet. -/
def validateCodeVerifier (codeVerifier : String) : Bool :=
  if codeVerifier == "" then false
  else if codeVerifier.length < 43 || codeVerifier.length > 128 then false
  else codeVerifier.toList.all isVerifierChar

/-- `generateState`: base64url encoding of 16 random bytes. -/
def generateState (randomBytes : List Nat) : String :=
  base64urlEncode randomBytes

/-! ## Session storage and configuration (`env-config.js`) -/

/-- Browser storage: a total map from key strings to stored values. -/
def Storage := String → Option String

/-! The fixed storage key constants of `getAuthConfig().storage.keys` in
`env-config.js`. -/

namespace STORAGE_KEYS

def ACCESS_TOKEN : String := "outlook2onenote_access_token"

def REFRESH_TOKEN : String := "outlook2onenote_refresh_token"

def TOKEN_EXPIRES : String := "outlook2onenote_token_expires"

def CODE_VERIFIER : String := "outlook2onenote_code_verifier"

def STATE : String := "outlook2onenote_state"

def USER_INFO : String := "outlook2onenote_user_info"

end STORAGE_KEYS

/-- The `pkce` section of `getAuthConfig()` in `env-config.js`. -/
structure PkceConfig where
  responseType : String
  codeChallengeMethod : String
  responseMode : String
  prompt : String

/-- `getAuthConfig().pkce`: fixed OAuth parameters. -/
def PKCE_CONFIG : PkceConfig :=
  { responseType := "code"
    codeChallengeMethod := "S256"
    responseMode := "query"
    prompt := "select_account" }

/-- The per-client fields of `getAuthConfig().azureAd` that
`PKCEAuthenticator` reads. -/
structure AuthConfig where
  clientId : String
  authority : String
  redirectUri : String
  scopes : List String

/-- `getAuthConfig().endpoints.auth` in its default (browser) form:
the authority's authorize endpoint. -/
def authEndpoint (cfg : AuthConfig) : String :=
  cfg.authority ++ "/oauth2/v2.0/authorize"

/-! ## Form-urlencoding (the `URLSearchParams` primitive) -/

/-- Upper-case hexadecimal digit. -/
def hexDigit (n : Nat) : Char := "0123456789ABCDEF".toList.getD n '0'

/-- Whether a byte is serialized verbatim by the
`application/x-www-form-urlencoded` serializer. -/
def formSafeByte (b : Nat) : Bool :=
  (48 ≤ b && b ≤ 57) || (65 ≤ b && b ≤ 90) || (97 ≤ b && b ≤ 122) ||
    b = 42 || b = 45 || b = 46 || b = 95

/-- One byte of form-urlencoded output: space becomes `+`, safe bytes pass
through, everything else is percent-encoded. -/
def formEncodeByte (b : Nat) : List Char :=
  if b = 32 then ['+']
  else if formSafeByte b then [Char.ofNat b]
  else ['%', hexDigit (b / 16), hexDigit (b % 16)]

/-- Form-urlencoding of a string (UTF-8 then byte-wise encoding), as
`URLSearchParams.toString` applies to each name and value. -/
def formEncode (s : String) : String :=
  String.mk ((utf8Encode s).flatMap formEncodeByte)

/-- `URLSearchParams.toString()` on an ordered parameter list. -/
def urlSearchParamsToString (params : List (String × String)) : String :=
  String.intercalate "&" (params.map fun p => formEncode p.1 ++ "=" ++ formEncode p.2)

/-! ## `PKCEAuthenticator` (`pkce-auth.js`) -/

namespace PKCEAuthenticator

/-- `storeSecurely`: write one key of session storage. -/
def storeSecurely (σ : Storage) (key value : String) : Storage :=
  fun k => if k = key then some value else σ k

/-- `retrieveSecurely`: read one key of session storage. -/
def retrieveSecurely (σ : Storage) (key : String) : Option String := σ key

/-- `removeSecurely`: delete one key of session storage. -/
def removeSecurely (σ : Storage) (key : String) : Storage :=
  fun k => if k = key then none else σ k

/-- `cleanupAuthState`: drop the stored code verifier and state. -/
def cleanupAuthState (σ : Storage) : Storage :=
  removeSecurely (removeSecurely σ STORAGE_KEYS.CODE_VERIFIER) STORAGE_KEYS.STATE

/-- The token object produced by the token-exchange helpers (`undefined`
fields are `none`). -/
structure TokenResponse where
  accessToken : String
  refreshToken : Option String
  expiresIn : Nat
  tokenType : Option String
  scope : Option String

/-- `storeTokens`: record the access token and the absolute expiry
timestamp `Date.now() + expiresIn * 1000`; record the refresh token only
when the response carries a (truthy) one. -/
def storeTokens (σ : Storage) (now : Nat) (tokens : TokenResponse) : Storage :=
  let expiresAt := now + tokens.expiresIn * 1000
  let σ2 := storeSecurely (storeSecurely σ STORAGE_KEYS.ACCESS_TOKEN tokens.accessToken)
    STORAGE_KEYS.TOKEN_EXPIRES (toString expiresAt)
  if jsTruthy tokens.refreshToken then
    storeSecurely σ2 STORAGE_KEYS.REFRESH_TOKEN (tokens.refreshToken.getD "")
  else σ2

/-- `hasValidToken`: a truthy access token and expiry must be stored and
the current time must be strictly below the stored expiry minus the
five-minute buffer.  A stored expiry that `parseInt` cannot read gives
`NaN`, and `now < NaN - buffer` is `false`. -/
def hasValidToken (σ : Storage) (now : Nat) : Bool :=
  let accessToken := retrieveSecurely σ STORAGE_KEYS.ACCESS_TOKEN
  let expiresAt := retrieveSecurely σ STORAGE_KEYS.TOKEN_EXPIRES
  if !jsTruthy accessToken || !jsTruthy expiresAt then false
  else
    match jsParseInt (expiresAt.getD "") with
    | none => false
    | some expirationTime => decide ((now : Int) < (expirationTime : Int) - 5 * 60 * 1000)

/-- `canRefreshToken`: a truthy refresh token is stored. -/
def canRefreshToken (σ : Storage) : Bool :=
  jsTruthy (retrieveSecurely σ STORAGE_KEYS.REFRESH_TOKEN)

/-- `buildAuthorizationUrl`: the authorize endpoint with the PKCE query
parameters, serialized by `URLSearchParams`. -/
def buildAuthorizationUrl (cfg : AuthConfig) (codeChallenge state : String) : String :=
  let params := [
    ("client_id", cfg.clientId),
    ("response_type", PKCE_CONFIG.responseType),
    ("redirect_uri", cfg.redirectUri),
    ("scope", String.intercalate " " cfg.scopes),
    ("state", state),
    ("code_challenge", codeChallenge),
    ("code_challenge_method", PKCE_CONFIG.codeChallengeMethod),
    ("response_mode", PKCE_CONFIG.responseMode),
    ("prompt", PKCE_CONFIG.prompt)]
  authEndpoint cfg ++ "?" ++ urlSearchParamsToString params

/-- The PKCE-parameter generation and storage at the start of
`startPKCEFlow`, before the popup is opened: a fresh verifier, challenge
and state are generated from this invocation's entropy, validated, and
stored. -/
def startPKCEFlowInit (env : CryptoEnv) (digest : List Nat → List Nat)
    (verifierBytes stateBytes : List Nat) (σ : Storage) :
    Except String (Storage × String × String × String) :=
  let codeVerifier := generateCodeVerifier verifierBytes
  let codeChallenge := generateCodeChallenge env digest codeVerifier
  let state := generateState stateBytes
  if validateCodeVerifier codeVerifier = false then
    Except.error "Generated code verifier is invalid"
  else
    let σ1 := storeSecurely σ STORAGE_KEYS.CODE_VERIFIER codeVerifier
    let σ2 := storeSecurely σ1 STORAGE_KEYS.STATE state
    Except.ok (σ2, codeVerifier, codeChallenge, state)

end PKCEAuthenticator

/-! ## Notebooks and mock data -/

/-- A notebook in the add-in's normalized shape.  The two date fields hold
the millisecond timestamps passed to `new Date(...)` before the
`toISOString()` presentation step. -/
structure Notebook where
  id : String
  name : String
  displayName : String
  isDefault : Bool
  createdDateTime : Int
  lastModifiedDateTime : Int
  sectionsUrl : String
  sectionGroupsUrl : String
  oneNoteClientUrl : String
  oneNoteWebUrl : String
deriving DecidableEq

namespace PKCEAuthenticator

/-- `PKCEAuthenticator.getMockNotebooks`: the two-notebook PKCE fallback
list. -/
def getMockNotebooks (now : Int) : List Notebook :=
  [{ id := "pkce-mock-1"
     name := "PKCE Test Notebook"
     displayName := "PKCE Test Notebook"
     isDefault := true
     createdDateTime := now - 86400000 * 7
     lastModifiedDateTime := now
     sectionsUrl := "https://graph.microsoft.com/v1.0/me/onenote/notebooks/pkce-mock-1/sections"
     sectionGroupsUrl := "https://graph.microsoft.com/v1.0/me/onenote/notebooks/pkce-mock-1/sectionGroups"
     oneNoteClientUrl := "onenote:https://mock-pkce/test-notebook"
     oneNoteWebUrl := "https://mock-onenote-web/test-notebook" },
   { id := "pkce-mock-2"
     name := "Secure Authentication Demo"
     displayName := "Secure Authentication Demo"
     isDefault := false
     createdDateTime := now - 86400000 * 14
     lastModifiedDateTime := now - 86400000 * 2
     sectionsUrl := "https://graph.microsoft.com/v1.0/me/onenote/notebooks/pkce-mock-2/sections"
     sectionGroupsUrl := "https://graph.microsoft.com/v1.0/me/onenote/notebooks/pkce-mock-2/sectionGroups"
     oneNoteClientUrl := "onenote:https://mock-pkce/auth-demo"
     oneNoteWebUrl := "https://mock-onenote-web/auth-demo" }]

/-- A message posted by the authentication popup. -/
inductive AuthMessage where
  | authCode (code state : String)
  | authSuccess (accessToken : Option String) (notebooks : Option (List Notebook))
  | authError (error : String)
  | other

/-- A `message` event as seen by the handler registered in
`startPKCEFlow`. -/
structure MsgEvent where
  origin : String
  data : AuthMessage

/-- Outcome of one run of the popup message handler. -/
inductive HandlerResult where
  | ignored
  | resolved (notebooks : Option (List Notebook))
  | rejected (message : String)
deriving DecidableEq

/-- Result state of the popup message handler: the settled promise value,
the storage after the run, and whether `exchangeCodeForTokens` was
invoked. -/
structure HandlerOut where
  result : HandlerResult
  store : Storage
  exchangeCalled : Bool

/-- The `messageHandler` closure of `startPKCEFlow`, for a single incoming
event.  `exchange` abstracts `exchangeCodeForTokens` (a network call) and
`notebooksResult` abstracts `getNotebooks`. -/
def messageHandler (windowOrigin : String) (σ : Storage)
    (exchange : String → Except String TokenResponse)
    (notebooksResult : Except String (List Notebook)) (now : Nat)
    (event : MsgEvent) : HandlerOut :=
  if event.origin ≠ windowOrigin then ⟨.ignored, σ, false⟩
  else
    match event.data with
    | .authCode code state =>
      let storedState := retrieveSecurely σ STORAGE_KEYS.STATE
      if storedState ≠ some state then
        ⟨.rejected "Invalid state parameter - possible CSRF attack", σ, false⟩
      else
        match exchange code with
        | .error e => ⟨.rejected e, σ, true⟩
        | .ok tokens =>
          let σ1 := storeTokens σ now tokens
          match notebooksResult with
          | .ok nbs => ⟨.resolved (some nbs), cleanupAuthState σ1, true⟩
          | .error e => ⟨.rejected e, σ1, true⟩
    | .authSuccess accessToken notebooks =>
      let σ1 :=
        if jsTruthy accessToken then
          storeSecurely σ STORAGE_KEYS.ACCESS_TOKEN (accessToken.getD "")
        else σ
      ⟨.resolved notebooks, σ1, false⟩
    | .authError e => ⟨.rejected e, σ, false⟩
    | .other => ⟨.ignored, σ, false⟩

/-- The query parameters of the redirect URL that
`handleAuthorizationCallback` reads via `URLSearchParams.get` (absent
parameters are `none`). -/
structure CallbackParams where
  code : Option String
  state : Option String
  error : Option String
  errorDescription : Option String

/-- `handleAuthorizationCallback`: validates the callback parameters and
the stored state, exchanges the code, stores the tokens, cleans up the
authorization state (the catch block also cleans up on every error path)
and fetches notebooks.  Returns the settled value, the final storage, and
whether `exchangeCodeForTokens` was invoked. -/
def handleAuthorizationCallback (σ : Storage) (params : CallbackParams)
    (exchange : String → Except String TokenResponse)
    (notebooksResult : Except String (List Notebook)) (now : Nat) :
    Except String (List Notebook) × Storage × Bool :=
  if jsTruthy params.error then
    (.error ("Authorization failed: " ++ jsStr params.error ++ " - " ++
      jsStr params.errorDescription), cleanupAuthState σ, false)
  else if !jsTruthy params.code then
    (.error "Authorization code not received", cleanupAuthState σ, false)
  else if !jsTruthy params.state then
    (.error "State parameter not received", cleanupAuthState σ, false)
  else
    let code := params.code.getD ""
    let state := params.state.getD ""
    let storedState := retrieveSecurely σ STORAGE_KEYS.STATE
    if storedState ≠ some state then
      (.error "Invalid state parameter - possible CSRF attack", cleanupAuthState σ, false)
    else
      match exchange code with
      | .error e => (.error e, cleanupAuthState σ, true)
      | .ok tokens =>
        let σ1 := storeTokens σ now tokens
        let σ2 := cleanupAuthState σ1
        match notebooksResult with
        | .ok nbs => (.ok nbs, σ2, true)
        | .error e => (.error e, cleanupAuthState σ2, true)

/-- The calls `authenticateAndGetNotebooks` can make, in order. -/
inductive AuthAction where
  | refreshCall
  | getNotebooksCall
  | startPKCECall
  | ssoCall
  | mockCall
deriving DecidableEq

/-- Abstracted outcomes of the effectful calls inside one run of
`PKCEAuthenticator.authenticateAndGetNotebooks`. -/
structure PkceRunEnv where
  store : Storage
  now : Nat
  refreshOutcome : Except String Unit
  getNotebooksOutcome : Except String (List Notebook)
  startPKCEOutcome : Except String (Option (List Notebook))
  ssoOutcome : Except String Unit

/-- `PKCEAuthenticator.authenticateAndGetNotebooks`: silent reuse of a
valid token, else silent refresh when a refresh token is stored, else the
interactive PKCE popup flow; any thrown error falls back to SSO
(`trySSoFallback`, which itself resolves mock data on success) and finally
to mock data.  The returned trace records the effectful calls in order. -/
def authenticateAndGetNotebooks (env : PkceRunEnv) :
    Option (List Notebook) × List AuthAction :=
  let tryOutcome : Except String (Option (List Notebook)) × List AuthAction :=
    if hasValidToken env.store env.now then
      match env.getNotebooksOutcome with
      | .ok nbs => (.ok (some nbs), [.getNotebooksCall])
      | .error e => (.error e, [.getNotebooksCall])
    else if canRefreshToken env.store then
      match env.refreshOutcome with
      | .error e => (.error e, [.refreshCall])
      | .ok _ =>
        match env.getNotebooksOutcome with
        | .ok nbs => (.ok (some nbs), [.refreshCall, .getNotebooksCall])
        | .error e => (.error e, [.refreshCall, .getNotebooksCall])
    else
      match env.startPKCEOutcome with
      | .error e => (.error e, [.startPKCECall])
      | .ok (some nbs) => (.ok (some nbs), [.startPKCECall])
      | .ok none =>
        match env.getNotebooksOutcome with
        | .ok nbs => (.ok (some nbs), [.startPKCECall, .getNotebooksCall])
        | .error e => (.error e, [.startPKCECall, .getNotebooksCall])
  match tryOutcome with
  | (.ok r, trace) => (r, trace)
  | (.error _, trace) =>
    match env.ssoOutcome with
    | .ok _ => (some (getMockNotebooks (env.now : Int)), trace ++ [.ssoCall])
    | .error _ =>
      (some (getMockNotebooks (env.now : Int)), trace ++ [.ssoCall, .mockCall])

end PKCEAuthenticator

/-! ## `graphapi-auth.js` (module level) -/

namespace GraphApiAuth

/-- The ambient Office host capabilities that `checkPlatformSupport`
inspects. -/
structure OfficeEnv where
  officeAvailable : Bool
  authAvailable : Bool
  mailboxAvailable : Bool
  platform : String
  version : String

/-- The support record built by `checkPlatformSupport` in
`graphapi-auth.js` (modernized version: `supportsPKCE` is hard-coded
`true`). -/
structure PlatformSupport where
  hasOffice : Bool
  hasAuth : Bool
  hasMailbox : Bool
  platform : String
  version : String
  supportsPKCE : Bool

/-- `checkPlatformSupport` from `graphapi-auth.js`. -/
def checkPlatformSupport (env : OfficeEnv) : PlatformSupport :=
  { hasOffice := env.officeAvailable
    hasAuth := env.officeAvailable && env.authAvailable
    hasMailbox := env.officeAvailable && env.mailboxAvailable
    platform := env.platform
    version := if env.officeAvailable then env.version else "unknown"
    supportsPKCE := true }

/-- `getMockNotebooks` from `graphapi-auth.js`: the static three-notebook
mock list. -/
def getMockNotebooks (now : Int) : List Notebook :=
  [{ id := "modern-mock-1"
     name := "PKCE Authentication Test"
     displayName := "PKCE Authentication Test"
     isDefault := false
     createdDateTime := now - 86400000 * 30
     lastModifiedDateTime := now - 86400000 * 5
     sectionsUrl := "https://graph.microsoft.com/v1.0/me/onenote/notebooks/modern-mock-1/sections"
     sectionGroupsUrl := "https://graph.microsoft.com/v1.0/me/onenote/notebooks/modern-mock-1/sectionGroups"
     oneNoteClientUrl := "onenote:https://modern-auth-demo/pkce-test"
     oneNoteWebUrl := "https://modern-onenote-web/pkce-test" },
   { id := "modern-mock-2"
     name := "OAuth 2.0 Secure Notebook"
     displayName := "OAuth 2.0 Secure Notebook"
     isDefault := true
     createdDateTime := now - 86400000 * 60
     lastModifiedDateTime := now - 86400000 * 1
     sectionsUrl := "https://graph.microsoft.com/v1.0/me/onenote/notebooks/modern-mock-2/sections"
     sectionGroupsUrl := "https://graph.microsoft.com/v1.0/me/onenote/notebooks/modern-mock-2/sectionGroups"
     oneNoteClientUrl := "onenote:https://modern-auth-demo/oauth2-secure"
     oneNoteWebUrl := "https://modern-onenote-web/oauth2-secure" },
   { id := "modern-mock-3"
     name := "Modern Authentication Demo"
     displayName := "Modern Authentication Demo"
     isDefault := false
     createdDateTime := now - 86400000 * 14
     lastModifiedDateTime := now - 86400000 * 2
     sectionsUrl := "https://graph.microsoft.com/v1.0/me/onenote/notebooks/modern-mock-3/sections"
     sectionGroupsUrl := "https://graph.microsoft.com/v1.0/me/onenote/notebooks/modern-mock-3/sectionGroups"
     oneNoteClientUrl := "onenote:https://modern-auth-demo/auth-demo"
     oneNoteWebUrl := "https://modern-onenote-web/auth-demo" }]

/-- The authentication methods attempted by the module-level
`authenticateAndGetNotebooks`, in the order attempted. -/
inductive AuthMethodTag where
  | pkce
  | sso
  | mock
deriving DecidableEq

/-- The settled value of the module-level `authenticateAndGetNotebooks`
promise: a notebook list, or `null` while a PKCE redirect is in
progress. -/
inductive GraphAuthResult where
  | notebooks (nbs : List Notebook)
  | nullResult
deriving DecidableEq

/-- The module-level `authenticateAndGetNotebooks` of `graphapi-auth.js`.
`pkce` abstracts the outcome of `pkceAuth.authenticateAndGetNotebooks`
(`.ok none` is the in-progress `null`, `.error` a thrown error) and `sso`
the outcome of `trySSoAuthentication`.  Returns the settled value and the
ordered trace of authentication methods attempted. -/
def authenticateAndGetNotebooks (env : OfficeEnv) (now : Int)
    (pkce : Except String (Option (List Notebook)))
    (sso : Except String (List Notebook)) :
    GraphAuthResult × List AuthMethodTag :=
  let support := checkPlatformSupport env
  let pkceTrace := if support.supportsPKCE then [AuthMethodTag.pkce] else []
  let pkceSettled : Option GraphAuthResult :=
    if support.supportsPKCE then
      match pkce with
      | .ok (some nbs) => if 0 < nbs.length then some (.notebooks nbs) else none
      | .ok none => some .nullResult
      | .error _ => none
    else none
  match pkceSettled with
  | some r => (r, pkceTrace)
  | none =>
    let ssoAvailable := support.hasOffice && support.hasAuth
    let ssoTrace := pkceTrace ++ if ssoAvailable then [AuthMethodTag.sso] else []
    let ssoSettled : Option (List Notebook) :=
      if ssoAvailable then
        match sso with
        | .ok nbs => if 0 < nbs.length then some nbs else none
        | .error _ => none
      else none
    match ssoSettled with
    | some nbs => (.notebooks nbs, ssoTrace)
    | none => (.notebooks (getMockNotebooks now), ssoTrace ++ [AuthMethodTag.mock])

end GraphApiAuth

/-! ## Conversation export (`exportConversationToOneNote`) -/

/-- An email of the conversation data, with the EWS-style field names the
export code reads (absent fields are `none`). -/
structure Email where
  DateTimeReceived : Option String
  DateTimeSent : Option String
  Subject : Option String
  Sender : Option String
  Body : Option String
deriving DecidableEq

/-- The sort key of the export comparator:
`new Date(a.DateTimeReceived || a.DateTimeSent || 0)`, with `parse`
abstracting the platform date parser (milliseconds since the epoch). -/
def dateKey (parse : String → Int) (e : Email) : Int :=
  match jsOr e.DateTimeReceived e.DateTimeSent with
  | some s => if s = "" then 0 else parse s
  | none => 0

/-- `body.replace(/\n/g, '<br>')`. -/
def replaceNewlines (s : String) : String :=
  String.mk (s.toList.flatMap fun c => if c = '\n' then "<br>".toList else [c])

/-- The HTML block appended for the email at (zero-based) index `idx`. -/
def emailBlock (idx : Nat) (email : Email) : String :=
  "\n        <div style=\"margin-bottom: 20px; padding: 10px; border: 1px solid #ccc; border-radius: 4px;\">\n          <h3>Email " ++
  toString (idx + 1) ++
  "</h3>\n          <p><strong>Subject:</strong> " ++
  jsOrDefault email.Subject "No Subject" ++
  "</p>\n          <p><strong>From:</strong> " ++
  jsOrDefault email.Sender "Unknown" ++
  "</p>\n          <p><strong>Date:</strong> " ++
  jsOrDefault2 email.DateTimeReceived email.DateTimeSent "Unknown" ++
  "</p>\n          <hr />\n          <div style=\"margin-top: 10px;\">\n            " ++
  replaceNewlines (jsOrDefault email.Body "No content available") ++
  "\n          </div>\n        </div>\n      "

/-- The closing part of the page HTML. -/
def pageFooter : String := "\n        </body>\n      </html>\n    "

/-- The opening part of the page HTML, up to the `<hr />` before the email
blocks. -/
def pageHeader (pageTitle nowString : String) (total : Nat) (notebookName : String) : String :=
  "\n      <html>\n        <head>\n          <title>" ++ pageTitle ++
  "</title>\n        </head>\n        <body>\n          <h1>" ++ pageTitle ++
  "</h1>\n          <p><strong>Exported on:</strong> " ++ nowString ++
  "</p>\n          <p><strong>Total emails:</strong> " ++ toString total ++
  "</p>\n          <p><strong>Target notebook:</strong> " ++ notebookName ++
  "</p>\n          <hr />\n    "

/-- The data computed by `exportConversationToOneNote`:
`conversationData` is the caller's array after the in-place sort. -/
structure ExportResult where
  conversationData : List Email
  pageTitle : String
  pageContent : String
deriving DecidableEq

/-- `exportConversationToOneNote` from the task pane: sorts the
conversation in place by date (received, falling back to sent, then to
epoch 0), titles the page after the first email's subject, and builds the
page HTML by appending one block per email in sorted order.  `nowString`
abstracts `new Date().toLocaleString()` and `parse` the platform date
parser.  The array mutation is modelled by returning the sorted array. -/
def exportConversationToOneNote (parse : String → Int) (nowString : String)
    (conversationData : List Email) (notebook : Notebook) : ExportResult :=
  let sorted := conversationData.mergeSort fun a b =>
    decide (dateKey parse a ≤ dateKey parse b)
  let pageTitle :=
    match sorted with
    | [] => "Email Thread Export"
    | e :: _ => "Email Thread: " ++ jsOrDefault e.Subject "No Subject"
  let notebookName := if notebook.displayName = "" then notebook.name else notebook.displayName
  let header := pageHeader pageTitle nowString sorted.length notebookName
  let pageContent :=
    (sorted.enum.foldl (fun acc p => acc ++ emailBlock p.1 p.2) header) ++ pageFooter
  { conversationData := sorted, pageTitle := pageTitle, pageContent := pageContent }

/-! ## Helper lemmas -/

theorem b64Char_default {n : Nat} (h : 64 ≤ n) : b64Char n = 'A' := by
  unfold b64Char
  apply List.getD_eq_default
  simpa [b64Alphabet] using h

theorem b64urlChar_default {n : Nat} (h : 64 ≤ n) : b64urlChar n = 'A' := by
  unfold b64urlChar
  apply List.getD_eq_default
  simpa [b64urlAlphabet] using h

theorem urlRepl_b64Char (n : Nat) : urlRepl (b64Char n) = b64urlChar n := by
  by_cases h : n < 64
  · revert h
    revert n
    decide
  · rw [b64Char_default (by omega), b64urlChar_default (by omega)]
    decide

theorem b64urlChar_ne_eq (n : Nat) : b64urlChar n ≠ '=' := by
  by_cases h : n < 64
  · revert h
    revert n
    decide
  · rw [b64urlChar_default (by omega)]
    decide

theorem map_repl_repl (l : List Char) :
    List.map (fun x => if x = '/' then '_' else x)
      (List.map (fun x => if x = '+' then '-' else x) l) = List.map urlRepl l := by
  induction l with
  | nil => rfl
  | cons c rest ih =>
    simp only [List.map_cons] at *
    rw [ih]
    congr 1
    unfold urlRepl
    by_cases h1 : c = '+'
    · simp [h1]
    · by_cases h2 : c = '/'
      · simp [h1, h2]
      · simp [h1, h2]

theorem filter_map_toChar (L : List (Option Nat)) :
    List.filter (fun x => x ≠ '=')
      (List.map (fun s => urlRepl (match s with | some n => b64Char n | none => '=')) L)
      = List.map b64urlChar (List.filterMap id L) := by
  induction L with
  | nil => rfl
  | cons s rest ih =>
    cases s with
    | some n =>
      simp only [List.map_cons, List.filterMap_cons, id]
      rw [urlRepl_b64Char, List.filter_cons_of_pos (by simp [b64urlChar_ne_eq n]), ih]
    | none =>
      have h : urlRepl '=' = '=' := by decide
      simp only [List.map_cons, List.filterMap_cons, id, h]
      rw [List.filter_cons_of_neg (by simp), ih]

/-- The source encoding (btoa followed by regex replacements) agrees with
the direct padding-free base64url encoding. -/
theorem base64urlEncode_eq_spec (data : List Nat) :
    base64urlEncode data = base64urlSpec data := by
  have hmk : ∀ l : List Char, (String.mk l).toList = l := fun _ => rfl
  unfold base64urlEncode base64urlSpec btoa replaceChar removeChar sextVals
  congr 1
  simp only [hmk]
  rw [map_repl_repl, List.map_map]
  rw [← filter_map_toChar (sextets data)]
  rfl

theorem sextVals_one (a : Nat) : sextVals [a] = [a / 4, a % 4 * 16] := rfl

theorem sextVals_two (a b : Nat) :
    sextVals [a, b] = [a / 4, a % 4 * 16 + b / 16, b % 16 * 4] := rfl

theorem sextVals_cons3 (a b c : Nat) (rest : List Nat) :
    sextVals (a :: b :: c :: rest) =
      a / 4 :: (a % 4 * 16 + b / 16) :: (b % 16 * 4 + c / 64) :: c % 64 :: sextVals rest := rfl

theorem sextVals_lt : ∀ (bs : List Nat), (∀ b ∈ bs, b < 256) → ∀ v ∈ sextVals bs, v < 64
  | [], _ => by simp [sextVals, sextets]
  | [a], h => by
    have ha := h a (by simp)
    intro v hv
    simp only [sextVals_one, List.mem_cons, List.not_mem_nil, or_false] at hv
    rcases hv with rfl | rfl <;> omega
  | [a, b], h => by
    have ha := h a (by simp)
    have hb := h b (by simp)
    intro v hv
    simp only [sextVals_two, List.mem_cons, List.not_mem_nil, or_false] at hv
    rcases hv with rfl | rfl | rfl <;> omega
  | a :: b :: c :: rest, h => by
    have ha := h a (by simp)
    have hb := h b (by simp)
    have hc := h c (by simp)
    have ih := sextVals_lt rest fun x hx => h x (by simp [hx])
    intro v hv
    rw [sextVals_cons3] at hv
    simp only [List.mem_cons] at hv
    rcases hv with rfl | rfl | rfl | rfl | hv
    · omega
    · omega
    · omega
    · omega
    · exact ih v hv

theorem unsextVals_sextVals :
    ∀ (bs : List Nat), (∀ b ∈ bs, b < 256) → unsextVals (sextVals bs) = bs
  | [], _ => rfl
  | [a], h => by
    have ha := h a (by simp)
    rw [sextVals_one]
    simp only [unsextVals, List.cons.injEq, and_true]
    omega
  | [a, b], h => by
    have ha := h a (by simp)
    have hb := h b (by simp)
    rw [sextVals_two]
    simp only [unsextVals, List.cons.injEq, and_true]
    omega
  | a :: b :: c :: rest, h => by
    have ha := h a (by simp)
    have hb := h b (by simp)
    have hc := h c (by simp)
    have ih := unsextVals_sextVals rest fun x hx => h x (by simp [hx])
    rw [sextVals_cons3]
    simp only [unsextVals, List.cons.injEq]
    exact ⟨by omega, by omega, by omega, ih⟩

theorem b64urlChar_injOn :
    ∀ m, m < 64 → ∀ n, n < 64 → b64urlChar m = b64urlChar n → m = n := by
  decide

theorem map_b64urlChar_inj :
    ∀ (l₁ l₂ : List Nat), (∀ x ∈ l₁, x < 64) → (∀ x ∈ l₂, x < 64) →
      l₁.map b64urlChar = l₂.map b64urlChar → l₁ = l₂
  | [], [], _, _, _ => rfl
  | [], _ :: _, _, _, h => by simp at h
  | _ :: _, [], _, _, h => by simp at h
  | a :: s, b :: t, h₁, h₂, h => by
    simp only [List.map_cons, List.cons.injEq] at h
    have hab := b64urlChar_injOn a (h₁ a (by simp)) b (h₂ b (by simp)) h.1
    rw [hab, map_b64urlChar_inj s t (fun x hx => h₁ x (by simp [hx]))
      (fun x hx => h₂ x (by simp [hx])) h.2]

/-- base64url encoding is injective on byte sequences. -/
theorem base64urlSpec_inj (bs₁ bs₂ : List Nat) (h₁ : ∀ b ∈ bs₁, b < 256)
    (h₂ : ∀ b ∈ bs₂, b < 256) (he : base64urlSpec bs₁ = base64urlSpec bs₂) :
    bs₁ = bs₂ := by
  have hdata : (sextVals bs₁).map b64urlChar = (sextVals bs₂).map b64urlChar :=
    congrArg String.data he
  have hs : sextVals bs₁ = sextVals bs₂ :=
    map_b64urlChar_inj _ _ (sextVals_lt bs₁ h₁) (sextVals_lt bs₂ h₂) hdata
  calc bs₁ = unsextVals (sextVals bs₁) := (unsextVals_sextVals bs₁ h₁).symm
    _ = unsextVals (sextVals bs₂) := by rw [hs]
    _ = bs₂ := unsextVals_sextVals bs₂ h₂

theorem sextVals_length : ∀ (bs : List Nat), (sextVals bs).length = (4 * bs.length + 2) / 3
  | [] => rfl
  | [a] => by rw [sextVals_one]; simp only [List.length_cons, List.length_nil]
  | [a, b] => by rw [sextVals_two]; simp only [List.length_cons, List.length_nil]
  | a :: b :: c :: rest => by
    rw [sextVals_cons3]
    simp only [List.length_cons]
    rw [sextVals_length rest]
    omega

theorem isVerifierChar_b64url (n : Nat) : isVerifierChar (b64urlChar n) = true := by
  by_cases h : n < 64
  · revert h
    revert n
    decide
  · rw [b64urlChar_default (by omega)]
    decide

theorem b64urlChar_mem_alphabet (n : Nat) : b64urlChar n ∈ b64urlAlphabet := by
  by_cases h : n < 64
  · revert h
    revert n
    decide
  · rw [b64urlChar_default (by omega)]
    decide

/-- C5: for every input string `v`, `generateCodeChallenge(v)` (with the
Web Crypto API available, `digest` standing for the platform primitive
`crypto.subtle.digest('SHA-256', ·)`) returns the base64url encoding —
URL-safe alphabet with all `=` padding removed — of the SHA-256 hash of
the UTF-8 encoding of `v`. -/
theorem C5_code_challenge_base64url_sha256 (env : CryptoEnv)
    (digest : List Nat → List Nat) (v : String) (hsub : env.subtle = true) :
    generateCodeChallenge env digest v = base64urlSpec (digest (utf8Encode v)) ∧
    ∀ c ∈ (generateCodeChallenge env digest v).toList, c ∈ b64urlAlphabet ∧ c ≠ '=' := by
  have h1 : generateCodeChallenge env digest v = base64urlSpec (digest (utf8Encode v)) := by
    unfold generateCodeChallenge
    rw [hsub]
    simp only [if_true]
    exact base64urlEncode_eq_spec _
  refine ⟨h1, ?_⟩
  rw [h1]
  intro c hc
  have hc' : c ∈ (sextVals (digest (utf8Encode v))).map b64urlChar := hc
  obtain ⟨n, -, rfl⟩ := List.mem_map.mp hc'
  exact ⟨b64urlChar_mem_alphabet n, b64urlChar_ne_eq n⟩

theorem C5_code_challenge_base64url_sha256_witness :
    generateCodeChallenge ⟨true⟩ (fun _ => List.range 32) "verifier" =
      base64urlSpec ((fun _ => List.range 32) (utf8Encode "verifier")) :=
  (C5_code_challenge_base64url_sha256 ⟨true⟩ (fun _ => List.range 32) "verifier" rfl).1

/-- C6: the code verifier generated from the 32 random bytes of one call
is a 43-character base64url string (hence within the 43..128 bounds) over
the verifier alphabet, `validateCodeVerifier` accepts it, distinct random
bytes yield distinct verifiers, and each `startPKCEFlow` invocation
generates and stores the verifier/challenge/state triple freshly from
that invocation's entropy. -/
theorem C6_code_verifier_valid (verifierBytes : List Nat)
    (hlen : verifierBytes.length = 32) (hlt : ∀ b ∈ verifierBytes, b < 256) :
    (generateCodeVerifier verifierBytes).length = 43 ∧
    (∀ c ∈ (generateCodeVerifier verifierBytes).toList, isVerifierChar c = true) ∧
    validateCodeVerifier (generateCodeVerifier verifierBytes) = true ∧
    (∀ bytes₂ : List Nat, (∀ b ∈ bytes₂, b < 256) →
      generateCodeVerifier verifierBytes = generateCodeVerifier bytes₂ →
      verifierBytes = bytes₂) ∧
    ∀ (env : CryptoEnv) (digest : List Nat → List Nat) (stateBytes : List Nat) (σ : Storage),
      PKCEAuthenticator.startPKCEFlowInit env digest verifierBytes stateBytes σ =
        Except.ok
          (PKCEAuthenticator.storeSecurely
            (PKCEAuthenticator.storeSecurely σ STORAGE_KEYS.CODE_VERIFIER
              (generateCodeVerifier verifierBytes))
            STORAGE_KEYS.STATE (generateState stateBytes),
           generateCodeVerifier verifierBytes,
           generateCodeChallenge env digest (generateCodeVerifier verifierBytes),
           generateState stateBytes) := by
  have hspec : generateCodeVerifier verifierBytes = base64urlSpec verifierBytes :=
    base64urlEncode_eq_spec verifierBytes
  have hlen43 : (generateCodeVerifier verifierBytes).length = 43 := by
    rw [hspec]
    show ((sextVals verifierBytes).map b64urlChar).length = 43
    rw [List.length_map, sextVals_length, hlen]
  have hchars : ∀ c ∈ (generateCodeVerifier verifierBytes).toList, isVerifierChar c = true := by
    rw [hspec]
    intro c hc
    have hc' : c ∈ (sextVals verifierBytes).map b64urlChar := hc
    obtain ⟨n, -, rfl⟩ := List.mem_map.mp hc'
    exact isVerifierChar_b64url n
  have hvalid : validateCodeVerifier (generateCodeVerifier verifierBytes) = true := by
    unfold validateCodeVerifier
    rw [if_neg, if_neg]
    · exact List.all_eq_true.mpr hchars
    · simp [hlen43]
    · simp only [beq_iff_eq]
      intro h
      rw [h] at hlen43
      simp at hlen43
  refine ⟨hlen43, hchars, hvalid, ?_, ?_⟩
  · intro bytes₂ hlt₂ he
    apply base64urlSpec_inj verifierBytes bytes₂ hlt hlt₂
    rw [← base64urlEncode_eq_spec, ← base64urlEncode_eq_spec]
    exact he
  · intro env digest stateBytes σ
    unfold PKCEAuthenticator.startPKCEFlowInit
    simp [hvalid]

theorem C6_code_verifier_valid_witness :
    validateCodeVerifier (generateCodeVerifier (List.range 32)) = true :=
  (C6_code_verifier_valid (List.range 32) (by simp)
    (by intro b hb; simp only [List.mem_range] at hb; omega)).2.2.1

/-- C3: `storeTokens` records token expiry as the absolute timestamp
`Date.now() + expiresIn * 1000` under the fixed key
`outlook2onenote_token_expires`, and `hasValidToken` returns `true`
exactly when both a (truthy) access token and a parseable expiry timestamp
are stored and the current time is strictly below the stored expiry minus
the 5-minute (300000 ms) buffer; in every other case it returns
`false`. -/
theorem C3_expiry_timestamp_and_buffer (σ : Storage) (now nowq : Nat) :
    (∀ tokens : PKCEAuthenticator.TokenResponse,
      PKCEAuthenticator.storeTokens σ now tokens STORAGE_KEYS.TOKEN_EXPIRES =
        some (toString (now + tokens.expiresIn * 1000))) ∧
    (PKCEAuthenticator.hasValidToken σ nowq = true ↔
      (∃ tok, σ STORAGE_KEYS.ACCESS_TOKEN = some tok ∧ tok ≠ "") ∧
      ∃ e n, σ STORAGE_KEYS.TOKEN_EXPIRES = some e ∧ jsParseInt e = some n ∧
        (nowq : Int) < (n : Int) - 300000) := by
  constructor
  · intro tokens
    unfold PKCEAuthenticator.storeTokens PKCEAuthenticator.storeSecurely
    by_cases h : jsTruthy tokens.refreshToken <;>
      simp [h, STORAGE_KEYS.TOKEN_EXPIRES, STORAGE_KEYS.REFRESH_TOKEN,
        STORAGE_KEYS.ACCESS_TOKEN]
  · cases hA : σ STORAGE_KEYS.ACCESS_TOKEN with
    | none =>
      have hval : PKCEAuthenticator.hasValidToken σ nowq = false := by
        unfold PKCEAuthenticator.hasValidToken PKCEAuthenticator.retrieveSecurely
        rw [hA]
        simp [jsTruthy]
      simp [hval, hA]
    | some tok =>
      by_cases ht : tok = ""
      · subst ht
        have hval : PKCEAuthenticator.hasValidToken σ nowq = false := by
          unfold PKCEAuthenticator.hasValidToken PKCEAuthenticator.retrieveSecurely
          rw [hA]
          simp [jsTruthy]
        simp [hval, hA]
      · have ht' : (tok == "") = false := beq_eq_false_iff_ne.mpr ht
        cases hE : σ STORAGE_KEYS.TOKEN_EXPIRES with
        | none =>
          have hval : PKCEAuthenticator.hasValidToken σ nowq = false := by
            unfold PKCEAuthenticator.hasValidToken PKCEAuthenticator.retrieveSecurely
            rw [hA, hE]
            simp [jsTruthy]
          simp [hval, hA, hE]
        | some e =>
          by_cases he : e = ""
          · subst he
            have hval : PKCEAuthenticator.hasValidToken σ nowq = false := by
              unfold PKCEAuthenticator.hasValidToken PKCEAuthenticator.retrieveSecurely
              rw [hA, hE]
              simp [jsTruthy, ht']
            have hP : jsParseInt "" = none := by simp [jsParseInt]
            simp [hval, hA, hE, hP]
          · have he' : (e == "") = false := beq_eq_false_iff_ne.mpr he
            cases hP : jsParseInt e with
            | none =>
              have hval : PKCEAuthenticator.hasValidToken σ nowq = false := by
                unfold PKCEAuthenticator.hasValidToken PKCEAuthenticator.retrieveSecurely
                rw [hA, hE]
                simp [jsTruthy, ht', he', hP]
              simp [hval, hA, hE, hP]
            | some n =>
              have hval : PKCEAuthenticator.hasValidToken σ nowq =
                  decide ((nowq : Int) < (n : Int) - 5 * 60 * 1000) := by
                unfold PKCEAuthenticator.hasValidToken PKCEAuthenticator.retrieveSecurely
                rw [hA, hE]
                simp [jsTruthy, ht', he', hP]
              rw [hval, decide_eq_true_eq]
              constructor
              · intro h
                exact ⟨⟨tok, rfl, ht⟩, e, n, rfl, hP, by omega⟩
              · rintro ⟨-, e', n', hE', hP', harith⟩
                obtain rfl : e = e' := Option.some_injective _ hE'
                rw [hP] at hP'
                obtain rfl : n = n' := Option.some_injective _ hP'
                omega

theorem C3_expiry_timestamp_and_buffer_witness :
    PKCEAuthenticator.storeTokens (fun _ => none) 1000
        ⟨"tok", none, 3600, none, none⟩ STORAGE_KEYS.TOKEN_EXPIRES =
      some (toString (1000 + 3600 * 1000)) :=
  (C3_expiry_timestamp_and_buffer (fun _ => none) 1000 0).1 ⟨"tok", none, 3600, none, none⟩

/-- C8: `storeTokens` always writes the access token and the expiry
timestamp under their fixed keys, writes the refresh-token key only when
the response carries a (truthy) refresh token, and changes no other key:
the stored code verifier, state, user info and a previously stored refresh
token are untouched when the response has no refresh token. -/
theorem C8_storeTokens_frame (σ : Storage) (now : Nat)
    (tokens : PKCEAuthenticator.TokenResponse) :
    PKCEAuthenticator.storeTokens σ now tokens STORAGE_KEYS.ACCESS_TOKEN =
      some tokens.accessToken ∧
    PKCEAuthenticator.storeTokens σ now tokens STORAGE_KEYS.TOKEN_EXPIRES =
      some (toString (now + tokens.expiresIn * 1000)) ∧
    (jsTruthy tokens.refreshToken = true →
      PKCEAuthenticator.storeTokens σ now tokens STORAGE_KEYS.REFRESH_TOKEN =
        some (tokens.refreshToken.getD "")) ∧
    (jsTruthy tokens.refreshToken = false →
      PKCEAuthenticator.storeTokens σ now tokens STORAGE_KEYS.REFRESH_TOKEN =
        σ STORAGE_KEYS.REFRESH_TOKEN) ∧
    PKCEAuthenticator.storeTokens σ now tokens STORAGE_KEYS.CODE_VERIFIER =
      σ STORAGE_KEYS.CODE_VERIFIER ∧
    PKCEAuthenticator.storeTokens σ now tokens STORAGE_KEYS.STATE =
      σ STORAGE_KEYS.STATE ∧
    PKCEAuthenticator.storeTokens σ now tokens STORAGE_KEYS.USER_INFO =
      σ STORAGE_KEYS.USER_INFO ∧
    ∀ k, k ≠ STORAGE_KEYS.ACCESS_TOKEN → k ≠ STORAGE_KEYS.TOKEN_EXPIRES →
      k ≠ STORAGE_KEYS.REFRESH_TOKEN →
      PKCEAuthenticator.storeTokens σ now tokens k = σ k := by
  have hframe : ∀ k, k ≠ STORAGE_KEYS.ACCESS_TOKEN → k ≠ STORAGE_KEYS.TOKEN_EXPIRES →
      k ≠ STORAGE_KEYS.REFRESH_TOKEN →
      PKCEAuthenticator.storeTokens σ now tokens k = σ k := by
    intro k h1 h2 h3
    unfold PKCEAuthenticator.storeTokens PKCEAuthenticator.storeSecurely
    by_cases h : jsTruthy tokens.refreshToken <;> simp [h, h1, h2, h3]
  refine ⟨?_, ?_, ?_, ?_, ?_, ?_, ?_, hframe⟩
  · unfold PKCEAuthenticator.storeTokens PKCEAuthenticator.storeSecurely
    by_cases h : jsTruthy tokens.refreshToken <;>
      simp [h, STORAGE_KEYS.ACCESS_TOKEN, STORAGE_KEYS.TOKEN_EXPIRES,
        STORAGE_KEYS.REFRESH_TOKEN]
  · unfold PKCEAuthenticator.storeTokens PKCEAuthenticator.storeSecurely
    by_cases h : jsTruthy tokens.refreshToken <;>
      simp [h, STORAGE_KEYS.ACCESS_TOKEN, STORAGE_KEYS.TOKEN_EXPIRES,
        STORAGE_KEYS.REFRESH_TOKEN]
  · intro h
    unfold PKCEAuthenticator.storeTokens PKCEAuthenticator.storeSecurely
    simp [h]
  · intro h
    unfold PKCEAuthenticator.storeTokens PKCEAuthenticator.storeSecurely
    simp [h, STORAGE_KEYS.ACCESS_TOKEN, STORAGE_KEYS.TOKEN_EXPIRES,
      STORAGE_KEYS.REFRESH_TOKEN]
  · exact hframe _ (by decide) (by decide) (by decide)
  · exact hframe _ (by decide) (by decide) (by decide)
  · exact hframe _ (by decide) (by decide) (by decide)

theorem C8_storeTokens_frame_witness :
    PKCEAuthenticator.storeTokens (fun _ => none) 0 ⟨"tok", none, 3600, none, none⟩
        STORAGE_KEYS.REFRESH_TOKEN = (fun _ => none : Storage) STORAGE_KEYS.REFRESH_TOKEN :=
  (C8_storeTokens_frame (fun _ => none) 0 ⟨"tok", none, 3600, none, none⟩).2.2.2.1 rfl

/-- C2: for every authorization response carrying a code and a state —
whether delivered through the popup message handler of `startPKCEFlow` or
through `handleAuthorizationCallback` — a received state that differs from
the stored one means `exchangeCodeForTokens` is never invoked and the
operation fails with the `Invalid state parameter` error. -/
theorem C2_state_mismatch_blocks_exchange (windowOrigin : String) (σ : Storage)
    (exchange : String → Except String PKCEAuthenticator.TokenResponse)
    (notebooksResult : Except String (List Notebook)) (now : Nat)
    (code received : String)
    (hmismatch : PKCEAuthenticator.retrieveSecurely σ STORAGE_KEYS.STATE ≠ some received)
    (hcode : code ≠ "") (hrecv : received ≠ "") :
    (PKCEAuthenticator.messageHandler windowOrigin σ exchange notebooksResult now
        ⟨windowOrigin, .authCode code received⟩).exchangeCalled = false ∧
    (PKCEAuthenticator.messageHandler windowOrigin σ exchange notebooksResult now
        ⟨windowOrigin, .authCode code received⟩).result =
      .rejected "Invalid state parameter - possible CSRF attack" ∧
    (PKCEAuthenticator.handleAuthorizationCallback σ
        ⟨some code, some received, none, none⟩ exchange notebooksResult now).2.2 = false ∧
    (PKCEAuthenticator.handleAuthorizationCallback σ
        ⟨some code, some received, none, none⟩ exchange notebooksResult now).1 =
      .error "Invalid state parameter - possible CSRF attack" := by
  have hmsg : PKCEAuthenticator.messageHandler windowOrigin σ exchange notebooksResult now
      ⟨windowOrigin, .authCode code received⟩ =
      ⟨.rejected "Invalid state parameter - possible CSRF attack", σ, false⟩ := by
    unfold PKCEAuthenticator.messageHandler
    rw [if_neg (by simp)]
    simp only []
    rw [if_pos hmismatch]
  have hcb : PKCEAuthenticator.handleAuthorizationCallback σ
      ⟨some code, some received, none, none⟩ exchange notebooksResult now =
      (.error "Invalid state parameter - possible CSRF attack",
        PKCEAuthenticator.cleanupAuthState σ, false) := by
    unfold PKCEAuthenticator.handleAuthorizationCallback
    have h1 : jsTruthy (none : Option String) = false := rfl
    have h2 : jsTruthy (some code) = true := by simp [jsTruthy, hcode]
    have h3 : jsTruthy (some received) = true := by simp [jsTruthy, hrecv]
    simp only [h1, h2, h3, Bool.not_true, Bool.false_eq_true, if_false,
      Option.getD_some]
    rw [if_pos hmismatch]
  rw [hmsg, hcb]
  exact ⟨rfl, rfl, rfl, rfl⟩

theorem C2_state_mismatch_blocks_exchange_witness :
    (PKCEAuthenticator.messageHandler "origin" (fun _ => none)
        (fun _ => Except.error "no network") (Except.error "no network") 0
        ⟨"origin", .authCode "authcode" "tampered"⟩).exchangeCalled = false :=
  (C2_state_mismatch_blocks_exchange "origin" (fun _ => none)
    (fun _ => Except.error "no network") (Except.error "no network") 0
    "authcode" "tampered"
    (by intro h; exact Option.noConfusion h) (by decide) (by decide)).1

/-- C4: in every run of `PKCEAuthenticator.authenticateAndGetNotebooks`,
the interactive popup flow (`startPKCEFlow`) is started only when
`hasValidToken()` is false and `canRefreshToken()` is false; whenever the
stored access token is stale but a refresh token is stored, a silent
`refreshAccessToken` call is made and no interactive PKCE flow is started
in that run. -/
theorem C4_refresh_before_interactive (env : PKCEAuthenticator.PkceRunEnv) :
    (PKCEAuthenticator.AuthAction.startPKCECall ∈
        (PKCEAuthenticator.authenticateAndGetNotebooks env).2 →
      PKCEAuthenticator.hasValidToken env.store env.now = false ∧
      PKCEAuthenticator.canRefreshToken env.store = false) ∧
    (PKCEAuthenticator.hasValidToken env.store env.now = false →
      PKCEAuthenticator.canRefreshToken env.store = true →
      PKCEAuthenticator.AuthAction.refreshCall ∈
        (PKCEAuthenticator.authenticateAndGetNotebooks env).2 ∧
      PKCEAuthenticator.AuthAction.startPKCECall ∉
        (PKCEAuthenticator.authenticateAndGetNotebooks env).2) := by
  by_cases hv : PKCEAuthenticator.hasValidToken env.store env.now <;>
    by_cases hr : PKCEAuthenticator.canRefreshToken env.store <;>
      rcases hG : env.getNotebooksOutcome with ⟨nbs⟩ | ⟨e1⟩ <;>
        rcases hR : env.refreshOutcome with ⟨u⟩ | ⟨e2⟩ <;>
          rcases hS : env.startPKCEOutcome with ⟨_ | nbs2⟩ | ⟨e3⟩ <;>
            rcases hSS : env.ssoOutcome with ⟨u2⟩ | ⟨e4⟩ <;>
              simp_all [PKCEAuthenticator.authenticateAndGetNotebooks]

theorem C4_refresh_before_interactive_witness :
    PKCEAuthenticator.AuthAction.refreshCall ∈
      (PKCEAuthenticator.authenticateAndGetNotebooks
        { store := fun k => if k = STORAGE_KEYS.REFRESH_TOKEN then some "rt" else none
          now := 0
          refreshOutcome := Except.ok ()
          getNotebooksOutcome := Except.ok []
          startPKCEOutcome := Except.ok none
          ssoOutcome := Except.ok () }).2 :=
  ((C4_refresh_before_interactive _).2 (by decide) (by decide)).1

/-- C1: the module-level `authenticateAndGetNotebooks` attempts PKCE, SSO
and mock data in exactly that order: when the PKCE attempt cannot complete
(it throws or yields no notebooks), SSO is attempted next via
`trySSoAuthentication` where available, and when SSO is also unavailable
or fails, the static mock notebook list from `getMockNotebooks` is
returned. -/
theorem C1_fallback_order_pkce_sso_mock (env : GraphApiAuth.OfficeEnv) (now : Int)
    (pkce : Except String (Option (List Notebook)))
    (sso : Except String (List Notebook)) :
    ((GraphApiAuth.authenticateAndGetNotebooks env now pkce sso).2 =
        [GraphApiAuth.AuthMethodTag.pkce] ∨
     (GraphApiAuth.authenticateAndGetNotebooks env now pkce sso).2 =
        [GraphApiAuth.AuthMethodTag.pkce, GraphApiAuth.AuthMethodTag.sso] ∨
     (GraphApiAuth.authenticateAndGetNotebooks env now pkce sso).2 =
        [GraphApiAuth.AuthMethodTag.pkce, GraphApiAuth.AuthMethodTag.mock] ∨
     (GraphApiAuth.authenticateAndGetNotebooks env now pkce sso).2 =
        [GraphApiAuth.AuthMethodTag.pkce, GraphApiAuth.AuthMethodTag.sso,
          GraphApiAuth.AuthMethodTag.mock]) ∧
    (((∃ e, pkce = .error e) ∨ pkce = .ok (some [])) →
      ((env.officeAvailable && env.authAvailable) = true →
        GraphApiAuth.AuthMethodTag.sso ∈
          (GraphApiAuth.authenticateAndGetNotebooks env now pkce sso).2 ∧
        (((∃ e, sso = .error e) ∨ sso = .ok []) →
          (GraphApiAuth.authenticateAndGetNotebooks env now pkce sso).2 =
            [GraphApiAuth.AuthMethodTag.pkce, GraphApiAuth.AuthMethodTag.sso,
              GraphApiAuth.AuthMethodTag.mock] ∧
          (GraphApiAuth.authenticateAndGetNotebooks env now pkce sso).1 =
            .notebooks (GraphApiAuth.getMockNotebooks now))) ∧
      ((env.officeAvailable && env.authAvailable) = false →
        (GraphApiAuth.authenticateAndGetNotebooks env now pkce sso).2 =
          [GraphApiAuth.AuthMethodTag.pkce, GraphApiAuth.AuthMethodTag.mock] ∧
        (GraphApiAuth.authenticateAndGetNotebooks env now pkce sso).1 =
          .notebooks (GraphApiAuth.getMockNotebooks now))) := by
  rcases pkce with e | o <;>
    [skip; rcases o with _ | nbs] <;>
    (rcases sso with e2 | l <;>
      [skip; by_cases hl : 0 < l.length]) <;>
        cases ho : env.officeAvailable <;>
        cases ha : env.authAvailable <;>
          (try by_cases hn : 0 < nbs.length) <;>
            simp_all [GraphApiAuth.authenticateAndGetNotebooks,
              GraphApiAuth.checkPlatformSupport, List.length_pos]

/-- C1 (counterexample): a blocked popup does not trigger the
module-level fallback the claim describes.  `startPKCEFlow` rejects with
the popup error, but `pkceAuth.authenticateAndGetNotebooks` catches it and
settles with its own internal two-entry mock list, a non-empty success;
feeding that settled value to the module-level
`authenticateAndGetNotebooks` (with SSO available but failing), the trace
stops at PKCE — `trySSoAuthentication` is never attempted — and the result
is not the static three-entry mock list of `graphapi-auth.js`. -/
theorem C1_popup_blocked_counterexample :
    (PKCEAuthenticator.authenticateAndGetNotebooks
        { store := fun _ => none
          now := 0
          refreshOutcome := Except.error "unused"
          getNotebooksOutcome := Except.error "Access token not available"
          startPKCEOutcome := Except.error
            "Failed to open authentication popup. Please allow popups for this site and try again."
          ssoOutcome := Except.error "Office.js SSO not available" }).1 =
      some (PKCEAuthenticator.getMockNotebooks 0) ∧
    (GraphApiAuth.authenticateAndGetNotebooks ⟨true, true, true, "OfficeOnline", "1.1"⟩ 0
        (Except.ok (some (PKCEAuthenticator.getMockNotebooks 0)))
        (Except.error "SSO failed")).2 = [GraphApiAuth.AuthMethodTag.pkce] ∧
    GraphApiAuth.AuthMethodTag.sso ∉
      (GraphApiAuth.authenticateAndGetNotebooks ⟨true, true, true, "OfficeOnline", "1.1"⟩ 0
        (Except.ok (some (PKCEAuthenticator.getMockNotebooks 0)))
        (Except.error "SSO failed")).2 ∧
    (GraphApiAuth.authenticateAndGetNotebooks ⟨true, true, true, "OfficeOnline", "1.1"⟩ 0
        (Except.ok (some (PKCEAuthenticator.getMockNotebooks 0)))
        (Except.error "SSO failed")).1 ≠
      GraphApiAuth.GraphAuthResult.notebooks (GraphApiAuth.getMockNotebooks 0) := by
  refine ⟨rfl, rfl, ?_, ?_⟩
  · decide
  · intro h
    have hlen : (PKCEAuthenticator.getMockNotebooks 0).length =
        (GraphApiAuth.getMockNotebooks 0).length := by
      have h2 : (GraphApiAuth.authenticateAndGetNotebooks
          ⟨true, true, true, "OfficeOnline", "1.1"⟩ 0
          (Except.ok (some (PKCEAuthenticator.getMockNotebooks 0)))
          (Except.error "SSO failed")).1 =
          GraphApiAuth.GraphAuthResult.notebooks (PKCEAuthenticator.getMockNotebooks 0) := rfl
      rw [h2] at h
      injection h with h3
      rw [h3]
    simp [PKCEAuthenticator.getMockNotebooks, GraphApiAuth.getMockNotebooks] at hlen

theorem C1_fallback_order_pkce_sso_mock_witness :
    (GraphApiAuth.authenticateAndGetNotebooks
        ⟨true, true, true, "OfficeOnline", "1.1"⟩ 0 (Except.error "popup blocked")
        (Except.error "SSO failed")).2 =
      [GraphApiAuth.AuthMethodTag.pkce, GraphApiAuth.AuthMethodTag.sso,
        GraphApiAuth.AuthMethodTag.mock] :=
  (((C1_fallback_order_pkce_sso_mock ⟨true, true, true, "OfficeOnline", "1.1"⟩ 0
      (Except.error "popup blocked") (Except.error "SSO failed")).2
    (Or.inl ⟨"popup blocked", rfl⟩)).1 rfl).2 (Or.inl ⟨"SSO failed", rfl⟩) |>.1

/-- C9: the module-level `authenticateAndGetNotebooks` never rejects (the
embedding is a total function over all abstracted outcomes, including
thrown PKCE and SSO errors): it settles with a non-empty notebook list,
with `null` only when the PKCE flow reported a redirect in progress, or
with the non-empty three-element mock list from `getMockNotebooks`. -/
theorem C9_always_resolves (env : GraphApiAuth.OfficeEnv) (now : Int)
    (pkce : Except String (Option (List Notebook)))
    (sso : Except String (List Notebook)) :
    ((GraphApiAuth.authenticateAndGetNotebooks env now pkce sso).1 =
        GraphApiAuth.GraphAuthResult.nullResult → pkce = .ok none) ∧
    ((∃ nbs, (GraphApiAuth.authenticateAndGetNotebooks env now pkce sso).1 =
        GraphApiAuth.GraphAuthResult.notebooks nbs ∧ nbs ≠ []) ∨
      (GraphApiAuth.authenticateAndGetNotebooks env now pkce sso).1 =
        GraphApiAuth.GraphAuthResult.nullResult) ∧
    (GraphApiAuth.getMockNotebooks now).length = 3 := by
  rcases pkce with e | o <;>
    [skip; rcases o with _ | nbs] <;>
    (rcases sso with e2 | l <;>
      [skip; by_cases hl : 0 < l.length]) <;>
        cases ho : env.officeAvailable <;>
        cases ha : env.authAvailable <;>
          (try by_cases hn : 0 < nbs.length) <;>
            simp_all [GraphApiAuth.authenticateAndGetNotebooks,
              GraphApiAuth.checkPlatformSupport, GraphApiAuth.getMockNotebooks,
              List.length_pos]

theorem C9_always_resolves_witness :
    (GraphApiAuth.getMockNotebooks 0).length = 3 :=
  (C9_always_resolves ⟨false, false, false, "unknown", "unknown"⟩ 0
    (Except.error "x") (Except.error "y")).2.2

/-- C7: for every code challenge and state, `buildAuthorizationUrl`
targets the configured authority's authorize endpoint, and its query
string consists of exactly the parameters `client_id`,
`response_type=code`, `redirect_uri`, `scope` (the configured scopes
joined by spaces), `state`, `code_challenge`,
`code_challenge_method=S256`, `response_mode=query` and
`prompt=select_account`, in that order, each value form-urlencoded by
`URLSearchParams`. -/
theorem C7_authorization_url_params (cfg : AuthConfig) (codeChallenge state : String) :
    PKCEAuthenticator.buildAuthorizationUrl cfg codeChallenge state =
      cfg.authority ++ "/oauth2/v2.0/authorize" ++ "?" ++
        String.intercalate "&"
          ["client_id=" ++ formEncode cfg.clientId,
           "response_type=code",
           "redirect_uri=" ++ formEncode cfg.redirectUri,
           "scope=" ++ formEncode (String.intercalate " " cfg.scopes),
           "state=" ++ formEncode state,
           "code_challenge=" ++ formEncode codeChallenge,
           "code_challenge_method=S256",
           "response_mode=query",
           "prompt=select_account"] := rfl

theorem strJoin_shift : ∀ (l : List String) (init : String),
    List.foldl (fun r s => r ++ s) init l = init ++ String.join l
  | [], init => by simp [String.join]
  | a :: t, init => by
    simp only [List.foldl_cons]
    rw [strJoin_shift t (init ++ a), String.append_assoc]
    congr 1
    rw [show String.join (a :: t) = List.foldl (fun r s => r ++ s) ("" ++ a) t from rfl]
    rw [String.empty_append, strJoin_shift t a]

theorem strJoin_cons (a : String) (l : List String) :
    String.join (a :: l) = a ++ String.join l := by
  rw [show String.join (a :: l) = List.foldl (fun r s => r ++ s) ("" ++ a) l from rfl,
    String.empty_append, strJoin_shift l a]

theorem foldl_emailBlock_join (l : List (Nat × Email)) (init : String) :
    List.foldl (fun acc p => acc ++ emailBlock p.1 p.2) init l =
      init ++ String.join (l.map fun p => emailBlock p.1 p.2) := by
  induction l generalizing init with
  | nil => simp [String.join]
  | cons p t ih =>
    simp only [List.foldl_cons, List.map_cons]
    rw [ih (init ++ emailBlock p.1 p.2), strJoin_cons, ← String.append_assoc]

/-- C10: `exportConversationToOneNote` sorts its `conversationData`
argument in place into non-decreasing order of each email's
`DateTimeReceived` (falling back to `DateTimeSent`, then to epoch 0) — the
returned `conversationData` models the caller's array after the mutating
sort and is a permutation of the input; the generated page content lists
the emails in exactly that chronological order; and the page title is
`Email Thread: ` followed by the first email's subject (with the source's
`No Subject` stand-in when that subject is absent), or
`Email Thread Export` when the list is empty. -/
theorem C10_export_sorts_and_orders_page (parse : String → Int) (nowString : String)
    (conversationData : List Email) (notebook : Notebook) :
    (exportConversationToOneNote parse nowString conversationData notebook).conversationData.Perm
        conversationData ∧
    (exportConversationToOneNote parse nowString conversationData notebook).conversationData.Pairwise
        (fun a b => dateKey parse a ≤ dateKey parse b) ∧
    (exportConversationToOneNote parse nowString conversationData notebook).pageTitle =
      (match (exportConversationToOneNote parse nowString conversationData notebook).conversationData with
       | [] => "Email Thread Export"
       | e :: _ => "Email Thread: " ++ jsOrDefault e.Subject "No Subject") ∧
    (exportConversationToOneNote parse nowString conversationData notebook).pageContent =
      pageHeader
          (exportConversationToOneNote parse nowString conversationData notebook).pageTitle
          nowString conversationData.length
          (if notebook.displayName = "" then notebook.name else notebook.displayName) ++
        String.join
          (((exportConversationToOneNote parse nowString conversationData notebook).conversationData.enum).map
            fun p => emailBlock p.1 p.2) ++
        pageFooter := by
  refine ⟨List.mergeSort_perm conversationData _, ?_, rfl, ?_⟩
  · have hs := @List.sorted_mergeSort Email
      (fun a b => decide (dateKey parse a ≤ dateKey parse b))
      (fun a b c hab hbc => by
        simp only [decide_eq_true_eq] at hab hbc ⊢
        omega)
      (fun a b => by
        simp only [Bool.or_eq_true, decide_eq_true_eq]
        omega)
      conversationData
    exact hs.imp fun h => by simpa using h
  · rw [show (exportConversationToOneNote parse nowString conversationData notebook).pageContent =
        List.foldl (fun acc p => acc ++ emailBlock p.1 p.2)
          (pageHeader
            (exportConversationToOneNote parse nowString conversationData notebook).pageTitle
            nowString
            (conversationData.mergeSort
              (fun a b => decide (dateKey parse a ≤ dateKey parse b))).length
            (if notebook.displayName = "" then notebook.name else notebook.displayName))
          ((conversationData.mergeSort
            (fun a b => decide (dateKey parse a ≤ dateKey parse b))).enum) ++ pageFooter
      from rfl]
    rw [foldl_emailBlock_join, List.length_mergeSort, String.append_assoc,
      String.append_assoc]
    rfl

theorem C10_export_sorts_and_orders_page_witness :
    (exportConversationToOneNote (fun _ => 0) "now"
        [⟨some "2024-01-02", none, some "Re: hello", some "b", some "text"⟩,
         ⟨some "2024-01-01", none, some "hello", some "a", some "text"⟩]
        ⟨"id", "nb", "nb", false, 0, 0, "s", "sg", "c", "w"⟩).conversationData.Perm
      [⟨some "2024-01-02", none, some "Re: hello", some "b", some "text"⟩,
       ⟨some "2024-01-01", none, some "hello", some "a", some "text"⟩] :=
  (C10_export_sorts_and_orders_page (fun _ => 0) "now" _ _).1

end Outlook2OneNote
